import Mathlib

/-!
Shallow embedding of the QR-redirect analytics subsystem
(`utils_session.py`, `routes/public.py`, `routes/social.py`).

Conventions of the embedding:
* The relational store is a `DB` value holding the committed rows of the four
  tables this subsystem touches.  Timestamp columns that are filled in by
  database defaults (`first_seen_at`, `created_at`, `scanned_at`, `clicked_at`)
  carry no information used by any property here and are omitted.
* `async` functions become pure state-passing functions.  A storage fault that
  Python surfaces as an exception is an explicit argument (`Option DbFault`,
  or a `Bool` fault flag); `Except` models the exception flow inside a handler.
* Python truthiness of strings and of optional strings is modelled explicitly
  (`pyTruthy`, `pyTruthyOpt`), because the source code branches on it
  (`if inserted:`, `x or y or z`).
* External collaborators that are not part of this repository's analytics
  sources (the user-agent parser `parse_device_info` and the geolocation
  resolver `get_location_from_ip`) are parameters: the spec declares them as
  collaborator contracts (a pure total parser; a resolver whose outcome is a
  result, no data, or a fault), so handlers take the parser as a function
  argument and the workers take the resolver's outcome as an argument.
-/

/-- Storage faults that `except IntegrityError` / `except Exception` in
`is_new_user_atomic` distinguish.  Both are handled the same way. -/
inductive DbFault
  | integrityError
  | otherError
deriving Repr, DecidableEq

/-- One row of the `session_first_seen` table (columns inserted by
`is_new_user_atomic`; timestamp columns are database defaults, omitted). -/
structure SessionRow where
  session_id : String
  first_action_type : String
  first_branch_id : Option Nat
  first_qr_code_id : Option Nat
deriving Repr, DecidableEq

/-- One row of the QR-code table as read by the routes
(`id`, `code`, `target_url`, `is_active`, `branch_id`). -/
structure QRCodeRow where
  id : Nat
  code : String
  target_url : String
  is_active : Bool
  branch_id : Option Nat
deriving Repr, DecidableEq

/-- One row of the `qr_scans` table, with the fields `log_scan` sets and
`_enrich_location` later patches. -/
structure QRScanRow where
  id : Nat
  qr_code_id : Option Nat
  device_type : String
  device_name : String
  browser : String
  os : String
  ip_address : Option String
  country : Option String
  city : Option String
  region : Option String
  session_id : String
  is_new_user : Bool
  user_agent : String
deriving Repr, DecidableEq

/-- One row of the `social_clicks` table, with the fields `log_social_click`
sets and `_enrich_click_location` later patches (no `device_name`, no
`region` — the source never sets them). -/
structure SocialClickRow where
  id : Nat
  platform : String
  branch_id : Option Nat
  device_type : String
  browser : String
  os : String
  ip_address : Option String
  country : Option String
  city : Option String
  session_id : String
  is_new_user : Bool
  user_agent : String
deriving Repr, DecidableEq

/-- The committed contents of the store, restricted to the tables this
subsystem reads or writes. -/
structure DB where
  session_first_seen : List SessionRow
  qr_codes : List QRCodeRow
  qr_scans : List QRScanRow
  social_clicks : List SocialClickRow
deriving Repr, DecidableEq

/-- Python truthiness of a string: `""` is falsy, everything else truthy. -/
def pyTruthy (s : String) : Bool := !(s == "")

/-- Python truthiness of an optional string: `None` and `""` are falsy. -/
def pyTruthyOpt : Option String → Bool
  | none => false
  | some s => pyTruthy s

/-- Whether a `session_first_seen` row with this exact session id exists —
the condition the store's `ON CONFLICT (session_id)` clause tests. -/
def hasRowB (db : DB) (sid : String) : Bool :=
  db.session_first_seen.any (fun r => r.session_id == sid)

/-- Number of `session_first_seen` rows carrying this session id. -/
def rowCount (db : DB) (sid : String) : Nat :=
  (db.session_first_seen.filter (fun r => r.session_id == sid)).length

/-- Embedding of `utils_session.is_new_user_atomic`: one `INSERT ... ON CONFLICT
(session_id) DO NOTHING RETURNING session_id` followed by an immediate
commit.  `scalar_one_or_none()` yields the inserted key (only when a row was
actually inserted), and the source then branches on `if inserted:` —
Python truthiness of that optional string.  Any storage fault is caught,
rolled back (committed state unchanged) and answered with `False`. -/
def is_new_user_atomic (db : DB) (session_id action_type : String)
    (branch_id qr_code_id : Option Nat) (fault : Option DbFault) : Bool × DB :=
  match fault with
  | some _ => (false, db)
  | none =>
    let conflict := db.session_first_seen.any (fun r => r.session_id == session_id)
    let newDb :=
      if conflict then db
      else { db with session_first_seen :=
               db.session_first_seen ++
                 [⟨session_id, action_type, branch_id, qr_code_id⟩] }
    let inserted : Option String := if conflict then none else some session_id
    (pyTruthyOpt inserted, newDb)

/-- One invocation of the session classifier: the session id it carries, its
action type and the foreign keys of the triggering entity. -/
structure ClassifyCall where
  session_id : String
  action_type : String
  branch_id : Option Nat
  qr_code_id : Option Nat
deriving Repr, DecidableEq

/-- Run one fault-free classifier call. -/
def classify (db : DB) (c : ClassifyCall) : Bool × DB :=
  is_new_user_atomic db c.session_id c.action_type c.branch_id c.qr_code_id none

/-- Run a history of classifier calls in order, pairing every call with the
boolean it returned.  Because each call is one atomic statement against the
store, an arbitrary interleaving of concurrent callers is exactly an
arbitrary ordering of the calls in this list. -/
def runCalls : DB → List ClassifyCall → List (ClassifyCall × Bool) × DB
  | db, [] => ([], db)
  | db, c :: cs =>
    let r := classify db c
    let rest := runCalls r.2 cs
    ((c, r.1) :: rest.1, rest.2)

/-- The answers handed out to the calls that carried session id `sid`,
in order. -/
def resultsFor (sid : String) (ps : List (ClassifyCall × Bool)) : List Bool :=
  ps.filterMap (fun p => if p.1.session_id = sid then some p.2 else none)

/-- The row `is_new_user_atomic` inserts for a call. -/
def insRow (c : ClassifyCall) : SessionRow :=
  ⟨c.session_id, c.action_type, c.branch_id, c.qr_code_id⟩

/-- SQLAlchemy's `one_or_none` / `scalar_one_or_none` on a result list:
no row gives `none`, one row gives it, more rows raise
`MultipleResultsFound` (the `error` case). -/
def scalarOneOrNone {α : Type} : List α → Except Unit (Option α)
  | [] => Except.ok none
  | [x] => Except.ok (some x)
  | _ => Except.error ()

/-- What the body of `redirect_qr` can raise: a `fastapi.HTTPException`
with a status code, or SQLAlchemy's `MultipleResultsFound` from
`one_or_none`. -/
inductive RouteError
  | http (status : Nat)
  | multipleResults
deriving Repr, DecidableEq

/-- Observable outcome of `GET /r/{code}`: the HTML redirect page
(characterised by the destination URL it navigates to and the session id it
embeds and sets as the `qr_session` cookie), or a terminal HTTP status. -/
inductive RedirectResult
  | html (destination : String) (cookie_session : String)
  | status (code : Nat)
deriving Repr, DecidableEq

/-- Python's `"?" in target_url`: for a one-character needle, substring
containment is exactly membership among the string's characters. -/
def strContains (s : String) (c : Char) : Bool := s.data.contains c

/-- Lines 59-60 of `routes/public.py`: `separator = "&" if "?" in target_url
else "?"`, then `f"{target_url}{separator}branch={qr_code}"`. -/
def redirectDestination (target_url code : String) : String :=
  let separator := if strContains target_url '?' then "&" else "?"
  target_url ++ separator ++ "branch=" ++ code

/-- The `try` block of `redirect_qr`: look the code up with `one_or_none`,
raise 404 when absent, raise 410 when inactive, otherwise build the page.
The session id embedded in the page is the `qr_session` cookie when truthy,
else a freshly minted uuid (the `fresh` argument). -/
def redirect_qr_body (db : DB) (code : String) (cookie : Option String)
    (fresh : String) : Except RouteError RedirectResult :=
  match scalarOneOrNone (db.qr_codes.filter (fun q => q.code == code)) with
  | Except.error _ => Except.error RouteError.multipleResults
  | Except.ok none => Except.error (RouteError.http 404)
  | Except.ok (some qr) =>
    if !qr.is_active then Except.error (RouteError.http 410)
    else
      let session_id := if pyTruthyOpt cookie then cookie.getD "" else fresh
      Except.ok (RedirectResult.html (redirectDestination qr.target_url qr.code) session_id)

/-- Embedding of `routes/public.py:redirect_qr`: the whole body sits in one `try` whose
`except Exception` clause catches every exception — `fastapi.HTTPException`
included, since it subclasses `Exception` — and answers with
`HTTPException(500)`.  So every error the body raises leaves this handler
as a 500 response. -/
def redirect_qr (db : DB) (code : String) (cookie : Option String)
    (fresh : String) : RedirectResult :=
  match redirect_qr_body db code cookie fresh with
  | Except.ok r => r
  | Except.error _ => RedirectResult.status 500

/-- Result of the collaborator `parse_device_info` (a pure total function
per the spec's collaborator contract; its table of user-agent patterns is
outside this repository's analytics sources, so it is a parameter of the
handlers). -/
structure DeviceInfo where
  device_type : String
  device_name : String
  browser : String
  os : String
deriving Repr, DecidableEq

/-- The request-level inputs the handlers read outside the JSON body. -/
structure RequestCtx where
  ip_address : Option String
  cookie_session : Option String
  user_agent : Option String
deriving Repr, DecidableEq

/-- Parsed JSON body of `POST /api/scan-log` (each key may be absent). -/
structure ScanPayload where
  qr_code_id : Option Nat
  user_agent : Option String
  session_id : Option String
deriving Repr, DecidableEq

/-- Parsed JSON body of `POST /api/social-click` (each key may be absent). -/
structure SocialPayload where
  platform : Option String
  branch_code : Option String
  session_id : Option String
deriving Repr, DecidableEq

/-- Structured JSON body both event endpoints answer with: `{"status":
"success", ...}` (scan-log also carries `scan_id`, social-click does not,
hence the optional id) or `{"status": "error"}`. -/
inductive ApiResponse
  | success (scan_id : Option Nat) (is_new_user : Bool)
  | error
deriving Repr, DecidableEq

/-- Whether a response is the `{"status": "error"}` body. -/
def ApiResponse.isError : ApiResponse → Bool
  | ApiResponse.error => true
  | _ => false

/-- Everything observable when an event handler returns: the response body,
the committed store, whatever rows are still staged (added but neither
committed nor rolled back) on the request's session, and whether the
missing-session anomaly warning was logged. -/
structure HandlerOut where
  response : ApiResponse
  committed : DB
  pendingScans : List QRScanRow
  pendingClicks : List SocialClickRow
  sessionAnomalyLogged : Bool
deriving Repr, DecidableEq

/-- Line 137 of `routes/public.py`:
`session_id = frontend_session or cookie_session or str(uuid.uuid4())`. -/
def scanSessionId (payload_session : String) (cookie : Option String)
    (fresh : String) : String :=
  if pyTruthy payload_session then payload_session
  else if pyTruthyOpt cookie then cookie.getD ""
  else fresh

/-- Line 79 of `routes/social.py`:
`session_id = cookie_session or data.get("session_id", "") or str(uuid.uuid4())`. -/
def socialSessionId (cookie : Option String) (payload_session : String)
    (fresh : String) : String :=
  if pyTruthyOpt cookie then cookie.getD ""
  else if pyTruthy payload_session then payload_session
  else fresh

/-- Embedding of `routes/public.py:log_scan`.  `payload = none` models `request.json()`
raising inside the `try`; `commitFault` models `db.commit()` on the scan row
raising.  The `except` clause of this handler rolls the session back and
returns `{"status": "error"}`.  The classifier's own insert commits inside
`is_new_user_atomic`, before the scan row is staged. -/
def log_scan (deviceParser : String → DeviceInfo) (db : DB) (req : RequestCtx)
    (payload : Option ScanPayload) (classifyFault : Option DbFault)
    (commitFault : Bool) (fresh : String) : HandlerOut :=
  match payload with
  | none => ⟨ApiResponse.error, db, [], [], false⟩
  | some data =>
    let frontend_session := data.session_id.getD ""
    let session_id := scanSessionId frontend_session req.cookie_session fresh
    let anomaly := !pyTruthy frontend_session && !pyTruthyOpt req.cookie_session
    let device_info := deviceParser (data.user_agent.getD "")
    let r := is_new_user_atomic db session_id "qr_scan" none data.qr_code_id classifyFault
    let scan : QRScanRow :=
      { id := r.2.qr_scans.length + 1, qr_code_id := data.qr_code_id,
        device_type := device_info.device_type, device_name := device_info.device_name,
        browser := device_info.browser, os := device_info.os,
        ip_address := req.ip_address, country := none, city := none, region := none,
        session_id := session_id, is_new_user := r.1,
        user_agent := data.user_agent.getD "" }
    if commitFault then
      ⟨ApiResponse.error, r.2, [], [], anomaly⟩
    else
      ⟨ApiResponse.success (some scan.id) r.1,
       { r.2 with qr_scans := r.2.qr_scans ++ [scan] }, [], [], anomaly⟩

/-- Embedding of `routes/social.py:log_social_click`.  Differences from `log_scan`,
faithful to the source: the session id prefers the cookie over the payload;
no anomaly warning exists in this handler; the user agent comes from the
request header; a truthy `branch_code` is resolved to a `branch_id` with
`scalar_one_or_none` (absent code gives `None`); and the `except` clause
returns `{"status": "error"}` without rolling back, so a staged click row
stays pending on the session when the commit raised. -/
def log_social_click (deviceParser : String → DeviceInfo) (db : DB)
    (req : RequestCtx) (payload : Option SocialPayload)
    (classifyFault : Option DbFault) (commitFault : Bool)
    (fresh : String) : HandlerOut :=
  match payload with
  | none => ⟨ApiResponse.error, db, [], [], false⟩
  | some data =>
    let platform := data.platform.getD "unknown"
    let session_id := socialSessionId req.cookie_session (data.session_id.getD "") fresh
    let resolve : Except Unit (Option Nat) :=
      if pyTruthyOpt data.branch_code then
        match scalarOneOrNone
            ((db.qr_codes.filter (fun q => q.code == data.branch_code.getD "")).map
              (fun q => q.branch_id)) with
        | Except.error _ => Except.error ()
        | Except.ok none => Except.ok none
        | Except.ok (some v) => Except.ok v
      else Except.ok none
    match resolve with
    | Except.error _ => ⟨ApiResponse.error, db, [], [], false⟩
    | Except.ok branch_id =>
      let device_info := deviceParser (req.user_agent.getD "")
      let r := is_new_user_atomic db session_id "social_click" branch_id none classifyFault
      let click : SocialClickRow :=
        { id := r.2.social_clicks.length + 1, platform := platform,
          branch_id := branch_id, device_type := device_info.device_type,
          browser := device_info.browser, os := device_info.os,
          ip_address := req.ip_address, country := none, city := none,
          session_id := session_id, is_new_user := r.1,
          user_agent := req.user_agent.getD "" }
      if commitFault then
        ⟨ApiResponse.error, r.2, [], [click], false⟩
      else
        ⟨ApiResponse.success none r.1,
         { r.2 with social_clicks := r.2.social_clicks ++ [click] }, [], [], false⟩

/-- What came back from the collaborator `get_location_from_ip`: a result,
a falsy value (`None`, and `if not location_data:` also treats an empty
dict as no data), or a raised exception. -/
structure LocationData where
  country : Option String
  city : Option String
  region : Option String
deriving Repr, DecidableEq

/-- Outcome of the geography lookup. -/
inductive GeoResult
  | found (loc : LocationData)
  | noData
  | fault
deriving Repr, DecidableEq

/-- Embedding of `routes/public.py:_enrich_location`: on a fresh session, look up
geography, and only when a result came back re-fetch the scan row by id and
patch `country`, `city`, `region`.  Every failure is caught by the `try` and
swallowed; a missing row is skipped silently; a failed commit persists
nothing. -/
def _enrich_location (db : DB) (scan_id : Nat) (geo : GeoResult)
    (commitFault : Bool) : DB :=
  match geo with
  | GeoResult.fault => db
  | GeoResult.noData => db
  | GeoResult.found loc =>
    match scalarOneOrNone (db.qr_scans.filter (fun s => s.id == scan_id)) with
    | Except.error _ => db
    | Except.ok none => db
    | Except.ok (some _) =>
      if commitFault then db
      else { db with qr_scans :=
               db.qr_scans.map (fun s =>
                 if s.id == scan_id then
                   { s with country := loc.country, city := loc.city,
                            region := loc.region }
                 else s) }

/-- Embedding of `routes/social.py:_enrich_click_location`: same shape as
`_enrich_location`, on the click table, patching only `country` and `city`
(the source never sets a region on clicks). -/
def _enrich_click_location (db : DB) (click_id : Nat) (geo : GeoResult)
    (commitFault : Bool) : DB :=
  match geo with
  | GeoResult.fault => db
  | GeoResult.noData => db
  | GeoResult.found loc =>
    match scalarOneOrNone (db.social_clicks.filter (fun c => c.id == click_id)) with
    | Except.error _ => db
    | Except.ok none => db
    | Except.ok (some _) =>
      if commitFault then db
      else { db with social_clicks :=
               db.social_clicks.map (fun c =>
                 if c.id == click_id then
                   { c with country := loc.country, city := loc.city }
                 else c) }

/-! Concrete fixtures used by witnesses and counterexamples. -/

/-- The empty store. -/
def dbEmpty : DB := ⟨[], [], [], []⟩

/-- A concrete device parser instance (the collaborator contract's "unknown
inputs map to unknown categories" on every input). -/
def demoParser : String → DeviceInfo :=
  fun _ => ⟨"unknown", "unknown", "unknown", "unknown"⟩

/-- A small classifier history: two calls for session `"s"` (different
action types), one for `"t"`. -/
def demoCallsA : List ClassifyCall :=
  [⟨"s", "qr_scan", none, none⟩, ⟨"s", "social_click", some 1, none⟩,
   ⟨"t", "qr_scan", none, some 2⟩]

/-- Three same-session calls, as three serialized concurrent callers. -/
def demoCallsB : List ClassifyCall :=
  [⟨"w", "qr_scan", none, some 1⟩, ⟨"w", "qr_scan", none, some 1⟩,
   ⟨"w", "social_click", some 2, none⟩]

/-- A store holding one deactivated QR code. -/
def dbOneInactive : DB := ⟨[], [⟨1, "inact", "https://a.com", false, none⟩], [], []⟩

/-- A store holding one active QR code whose target has no query string. -/
def dbOneActive : DB := ⟨[], [⟨1, "CODE", "https://a.com", true, none⟩], [], []⟩

/-- A store holding one active QR code whose target already has a query
string. -/
def dbActiveQuery : DB := ⟨[], [⟨2, "CODE", "https://a.com?x=1", true, some 7⟩], [], []⟩

/-- One fully populated scan row awaiting enrichment. -/
def demoScan : QRScanRow :=
  ⟨1, some 1, "mobile", "iPhone", "Safari", "iOS", some "1.2.3.4",
   none, none, none, "s", true, "UA"⟩

/-- One fully populated click row awaiting enrichment. -/
def demoClick : SocialClickRow :=
  ⟨1, "facebook", some 2, "mobile", "Safari", "iOS", some "1.2.3.4",
   none, none, "s", true, "UA"⟩

/-- A store holding one scan and one click. -/
def dbOneEvent : DB := ⟨[], [], [demoScan], [demoClick]⟩

/-- A concrete geography lookup result. -/
def demoLoc : LocationData := ⟨some "AE", some "Dubai", some "DXB"⟩

/-! ### Lemmas about the session classifier -/

theorem runCalls_cons (db : DB) (c : ClassifyCall) (cs : List ClassifyCall) :
    runCalls db (c :: cs)
      = ((c, (classify db c).1) :: (runCalls (classify db c).2 cs).1,
         (runCalls (classify db c).2 cs).2) := rfl

theorem resultsFor_cons (sid : String) (c : ClassifyCall) (b : Bool)
    (ps : List (ClassifyCall × Bool)) :
    resultsFor sid ((c, b) :: ps)
      = if c.session_id = sid then b :: resultsFor sid ps
        else resultsFor sid ps := by
  by_cases hc : c.session_id = sid <;> simp [resultsFor, List.filterMap_cons, hc]

theorem classify_seen (db : DB) (c : ClassifyCall)
    (h : hasRowB db c.session_id = true) : classify db c = (false, db) := by
  simp only [hasRowB] at h
  simp [classify, is_new_user_atomic, h, pyTruthyOpt]

theorem classify_unseen (db : DB) (c : ClassifyCall)
    (h : hasRowB db c.session_id = false) :
    classify db c =
      (pyTruthy c.session_id,
       { db with session_first_seen := db.session_first_seen ++ [insRow c] }) := by
  simp only [hasRowB] at h
  simp [classify, is_new_user_atomic, h, pyTruthyOpt, insRow]

theorem hasRowB_append (db : DB) (r : SessionRow) (sid : String) :
    hasRowB { db with session_first_seen := db.session_first_seen ++ [r] } sid
      = (hasRowB db sid || (r.session_id == sid)) := by
  simp [hasRowB]

theorem rowCount_append (db : DB) (r : SessionRow) (sid : String) :
    rowCount { db with session_first_seen := db.session_first_seen ++ [r] } sid
      = rowCount db sid + (if r.session_id == sid then 1 else 0) := by
  simp only [rowCount, List.filter_append, List.length_append]
  cases h : (r.session_id == sid) <;> simp [h]

theorem rowCount_zero_of_not_hasRow (db : DB) (sid : String)
    (h : hasRowB db sid = false) : rowCount db sid = 0 := by
  simp only [hasRowB, List.any_eq_false] at h
  simp only [rowCount, List.length_eq_zero, List.filter_eq_nil_iff]
  exact h

theorem all_false_eq_replicate :
    ∀ (l : List Bool), (∀ b ∈ l, b = false) → l = List.replicate l.length false
  | [], _ => rfl
  | x :: xs, h => by
    have hx : x = false := h x (List.mem_cons_self x xs)
    have hxs := all_false_eq_replicate xs (fun b hb => h b (List.mem_cons_of_mem x hb))
    rw [List.length_cons, List.replicate_succ, hx]
    exact congrArg (List.cons false) hxs

theorem replicate_false_get (k i : Nat) (h : i < (List.replicate k false).length) :
    (List.replicate k false).get ⟨i, h⟩ = false :=
  List.eq_of_mem_replicate (List.get_mem _ _ _)

theorem runCalls_seen (sid : String) :
    ∀ (calls : List ClassifyCall) (db : DB), hasRowB db sid = true →
      (∀ b ∈ resultsFor sid (runCalls db calls).1, b = false) ∧
      rowCount (runCalls db calls).2 sid = rowCount db sid ∧
      hasRowB (runCalls db calls).2 sid = true
  | [], db, h => by
    refine ⟨?_, rfl, h⟩
    intro b hb
    simp [runCalls, resultsFor] at hb
  | c :: cs, db, h => by
    rw [runCalls_cons]
    cases hx : hasRowB db c.session_id with
    | true =>
      rw [classify_seen db c hx]
      obtain ⟨h1, h2, h3⟩ := runCalls_seen sid cs db h
      refine ⟨?_, h2, h3⟩
      intro b hb
      rw [resultsFor_cons] at hb
      by_cases hc : c.session_id = sid
      · rw [if_pos hc] at hb
        rcases List.mem_cons.mp hb with hb | hb
        · exact hb
        · exact h1 b hb
      · rw [if_neg hc] at hb
        exact h1 b hb
    | false =>
      rw [classify_unseen db c hx]
      have hcne : c.session_id ≠ sid := by
        intro he
        rw [he] at hx
        rw [h] at hx
        exact Bool.noConfusion hx
      have hbne : ((insRow c).session_id == sid) = false := by
        simp [insRow, hcne]
      have hrow' : hasRowB
          { db with session_first_seen := db.session_first_seen ++ [insRow c] } sid
          = true := by
        rw [hasRowB_append, h]
        rfl
      have hcnt' : rowCount
          { db with session_first_seen := db.session_first_seen ++ [insRow c] } sid
          = rowCount db sid := by
        rw [rowCount_append, hbne]
        simp
      obtain ⟨h1, h2, h3⟩ := runCalls_seen sid cs _ hrow'
      refine ⟨?_, by rw [h2, hcnt'], h3⟩
      intro b hb
      rw [resultsFor_cons, if_neg hcne] at hb
      exact h1 b hb

theorem runCalls_fresh (sid : String) :
    ∀ (calls : List ClassifyCall) (db : DB), hasRowB db sid = false →
      (resultsFor sid (runCalls db calls).1 = [] ∧
       rowCount (runCalls db calls).2 sid = rowCount db sid ∧
       hasRowB (runCalls db calls).2 sid = false) ∨
      ((∃ k, resultsFor sid (runCalls db calls).1
          = pyTruthy sid :: List.replicate k false) ∧
       rowCount (runCalls db calls).2 sid = rowCount db sid + 1)
  | [], db, h => by
    left
    refine ⟨?_, rfl, h⟩
    simp [runCalls, resultsFor]
  | c :: cs, db, h => by
    rw [runCalls_cons]
    by_cases hc : c.session_id = sid
    · have hx : hasRowB db c.session_id = false := by rw [hc]; exact h
      rw [classify_unseen db c hx]
      have hbeq : ((insRow c).session_id == sid) = true := by
        simp [insRow, hc]
      have hrow' : hasRowB
          { db with session_first_seen := db.session_first_seen ++ [insRow c] } sid
          = true := by
        rw [hasRowB_append, hbeq]
        simp
      have hcnt' : rowCount
          { db with session_first_seen := db.session_first_seen ++ [insRow c] } sid
          = rowCount db sid + 1 := by
        rw [rowCount_append, hbeq]
        simp
      obtain ⟨h1, h2, h3⟩ := runCalls_seen sid cs _ hrow'
      right
      constructor
      · rw [resultsFor_cons, if_pos hc, hc]
        have hrep := all_false_eq_replicate _ h1
        exact ⟨_, by rw [hrep]⟩
      · rw [h2, hcnt']
    · cases hx : hasRowB db c.session_id with
      | true =>
        rw [classify_seen db c hx]
        rcases runCalls_fresh sid cs db h with ⟨h1, h2, h3⟩ | ⟨⟨k, hk⟩, h2⟩
        · left
          refine ⟨?_, h2, h3⟩
          rw [resultsFor_cons, if_neg hc]
          exact h1
        · right
          refine ⟨⟨k, ?_⟩, h2⟩
          rw [resultsFor_cons, if_neg hc]
          exact hk
      | false =>
        rw [classify_unseen db c hx]
        have hbne : ((insRow c).session_id == sid) = false := by
          simp [insRow, hc]
        have hrow' : hasRowB
            { db with session_first_seen := db.session_first_seen ++ [insRow c] } sid
            = false := by
          rw [hasRowB_append, hbne, h]
          rfl
        have hcnt0 : rowCount
            { db with session_first_seen := db.session_first_seen ++ [insRow c] } sid
            = rowCount db sid := by
          rw [rowCount_append, hbne]
          simp
        rcases runCalls_fresh sid cs _ hrow' with ⟨h1, h2, h3⟩ | ⟨⟨k, hk⟩, h2⟩
        · left
          refine ⟨?_, by rw [h2, hcnt0], h3⟩
          rw [resultsFor_cons, if_neg hc]
          exact h1
        · right
          refine ⟨⟨k, ?_⟩, by rw [h2, hcnt0]⟩
          rw [resultsFor_cons, if_neg hc]
          exact hk

theorem runCalls_length :
    ∀ (calls : List ClassifyCall) (db : DB),
      (runCalls db calls).1.length = calls.length
  | [], _ => rfl
  | c :: cs, db => by
    rw [runCalls_cons]
    simp [runCalls_length cs]

theorem resultsFor_all (sid : String) :
    ∀ (calls : List ClassifyCall) (db : DB),
      (∀ c ∈ calls, c.session_id = sid) →
      resultsFor sid (runCalls db calls).1 = (runCalls db calls).1.map Prod.snd
  | [], db, _ => by simp [runCalls, resultsFor]
  | c :: cs, db, h => by
    rw [runCalls_cons]
    rw [resultsFor_cons, if_pos (h c (List.mem_cons_self c cs))]
    simp only [List.map_cons]
    exact congrArg (List.cons _)
      (resultsFor_all sid cs _ (fun x hx => h x (List.mem_cons_of_mem c hx)))

theorem count_true_replicate_false :
    ∀ (k : Nat), (List.replicate k false).count true = 0
  | 0 => rfl
  | k + 1 => by
    rw [List.replicate_succ, List.count_cons]
    simp [count_true_replicate_false k]

theorem replicate_false_getElem? :
    ∀ (k n : Nat), n < k → (List.replicate k false)[n]? = some false
  | 0, n, h => absurd h (Nat.not_lt_zero n)
  | k + 1, 0, _ => by
    rw [List.replicate_succ]
    simp
  | k + 1, n + 1, h => by
    rw [List.replicate_succ, List.getElem?_cons_succ]
    exact replicate_false_getElem? k n (Nat.lt_of_succ_lt_succ h)

/-! ### Claim theorems -/

/-- C1 (amended to nonempty session identifiers): starting from a store with
no first-seen row for `sid`, over any history of classifier calls the calls
carrying a nonempty `sid` get `true` on the first and `false` on every later
one, and at most one `session_first_seen` row for `sid` ever exists (the
row-count bound needs no nonemptiness).  For `sid = ""` the source's
`if inserted:` truthiness check misreads the inserted key, see the
counterexample. -/
theorem classifier_exactly_once (db : DB) (calls : List ClassifyCall)
    (sid : String) (hfresh : hasRowB db sid = false) :
    (sid ≠ "" → ∀ i : Nat, i < (resultsFor sid (runCalls db calls).1).length →
        (resultsFor sid (runCalls db calls).1)[i]? = some (decide (i = 0))) ∧
    rowCount (runCalls db calls).2 sid ≤ 1 := by
  constructor
  · intro hne i hi
    rcases runCalls_fresh sid calls db hfresh with ⟨hnil, _, _⟩ | ⟨⟨k, hk⟩, _⟩
    · rw [hnil] at hi
      simp at hi
    · have hpy : pyTruthy sid = true := by simp [pyTruthy, hne]
      rw [hk, hpy] at hi ⊢
      cases i with
      | zero => simp
      | succ n =>
        rw [List.getElem?_cons_succ]
        have hn : n < k := by
          simpa [Nat.succ_lt_succ_iff] using hi
        rw [replicate_false_getElem? k n hn]
        simp
  · have h0 := rowCount_zero_of_not_hasRow db sid hfresh
    rcases runCalls_fresh sid calls db hfresh with ⟨_, h2, _⟩ | ⟨_, h2⟩ <;>
      simp [h2, h0]

/-- Witness for C1 at a concrete history: session `"s"`, never seen before,
classified `true` on the first call and `false` on the second, with at most
one first-seen row afterwards. -/
theorem classifier_exactly_once_witness :
    hasRowB dbEmpty "s" = false ∧
    (resultsFor "s" (runCalls dbEmpty demoCallsA).1)[0]? = some true ∧
    (resultsFor "s" (runCalls dbEmpty demoCallsA).1)[1]? = some false ∧
    rowCount (runCalls dbEmpty demoCallsA).2 "s" ≤ 1 := by
  have h := classifier_exactly_once dbEmpty demoCallsA "s" (by decide)
  refine ⟨by decide, ?_, ?_, h.2⟩
  · have := h.1 (by decide) 0 (by decide)
    simpa using this
  · have := h.1 (by decide) 1 (by decide)
    simpa using this

/-- C1 counterexample: the empty string is a session identifier the claim
quantifies over, yet its very first classification — the store holding no
row for it — returns `false` while still inserting the row: `RETURNING
session_id` hands back `""`, and the source's `if inserted:` treats the
falsy string as "not inserted". -/
theorem classifier_first_call_empty_sid_returns_false :
    hasRowB dbEmpty "" = false ∧
    (is_new_user_atomic dbEmpty "" "qr_scan" none none none).1 = false ∧
    rowCount (is_new_user_atomic dbEmpty "" "qr_scan" none none none).2 "" = 1 := by
  decide

/-- C2 (amended to nonempty session identifiers): any number of concurrent
classification calls carrying the same nonempty session id — serialized in
an arbitrary order, which is all the interleavings a set of single-statement
atomic inserts admits — produce exactly one `true`. -/
theorem classifier_single_winner (db : DB) (sid : String)
    (calls : List ClassifyCall) (hne : sid ≠ "") (hnonempty : calls ≠ [])
    (hall : ∀ c ∈ calls, c.session_id = sid)
    (hfresh : hasRowB db sid = false) :
    ((runCalls db calls).1.map Prod.snd).count true = 1 := by
  rw [← resultsFor_all sid calls db hall]
  rcases runCalls_fresh sid calls db hfresh with ⟨hnil, _, _⟩ | ⟨⟨k, hk⟩, _⟩
  · exfalso
    have hlen : (resultsFor sid (runCalls db calls).1).length = calls.length := by
      rw [resultsFor_all sid calls db hall, List.length_map, runCalls_length]
    rw [hnil] at hlen
    cases calls with
    | nil => exact hnonempty rfl
    | cons a l => simp at hlen
  · have hpy : pyTruthy sid = true := by simp [pyTruthy, hne]
    rw [hk, hpy, List.count_cons]
    simp [count_true_replicate_false]

/-- Witness for C2: three serialized callers with session `"w"` on a fresh
store — exactly one of them is told `true`. -/
theorem classifier_single_winner_witness :
    ("w" ≠ "" ∧ demoCallsB ≠ [] ∧ (∀ c ∈ demoCallsB, c.session_id = "w") ∧
      hasRowB dbEmpty "w" = false) ∧
    ((runCalls dbEmpty demoCallsB).1.map Prod.snd).count true = 1 :=
  ⟨⟨by decide, by decide, by decide, by decide⟩,
   classifier_single_winner dbEmpty "w" demoCallsB (by decide) (by decide)
     (by decide) (by decide)⟩

/-- C2 counterexample: two concurrent callers with the empty-string session
id get zero `true` answers, not exactly one — the same `if inserted:`
truthiness slip as in the C1 counterexample. -/
theorem classifier_empty_sid_no_winner :
    ¬ (((runCalls dbEmpty
          [⟨"", "qr_scan", none, none⟩, ⟨"", "qr_scan", none, none⟩]).1.map
            Prod.snd).count true = 1) := by
  decide

/-- C3: on any storage fault — `IntegrityError` or any other exception —
the classifier rolls back, leaves the committed store unchanged and answers
`false`; it is a total function, so no exception reaches the caller, and a
scan-log request whose classification faulted still records its event and
still answers `{"status": "success", ...}`. -/
theorem classifier_fault_returns_false_and_rolls_back (db : DB)
    (sid act : String) (bid qid : Option Nat) (f : DbFault)
    (deviceParser : String → DeviceInfo) (req : RequestCtx) (p : ScanPayload)
    (platformv : Option String) (sessv : Option String) (fresh : String) :
    is_new_user_atomic db sid act bid qid (some f) = (false, db) ∧
    (log_scan deviceParser db req (some p) (some f) false fresh).response.isError
      = false ∧
    (log_scan deviceParser db req (some p) (some f) false fresh).committed.qr_scans.length
      = db.qr_scans.length + 1 ∧
    (log_social_click deviceParser db req (some ⟨platformv, none, sessv⟩)
        (some f) false fresh).response.isError = false ∧
    (log_social_click deviceParser db req (some ⟨platformv, none, sessv⟩)
        (some f) false fresh).committed.social_clicks.length
      = db.social_clicks.length + 1 := by
  refine ⟨rfl, ?_, ?_, ?_, ?_⟩ <;>
    simp [log_scan, log_social_click, is_new_user_atomic, pyTruthyOpt,
      ApiResponse.isError]

theorem pyTruthyOpt_eq (o : Option String) :
    pyTruthyOpt o = pyTruthy (o.getD "") := by
  cases o <;> simp [pyTruthyOpt, pyTruthy]

theorem is_new_user_atomic_frame (db : DB) (sid act : String)
    (bid qid : Option Nat) (f : Option DbFault) :
    (is_new_user_atomic db sid act bid qid f).2.qr_codes = db.qr_codes ∧
    (is_new_user_atomic db sid act bid qid f).2.qr_scans = db.qr_scans ∧
    (is_new_user_atomic db sid act bid qid f).2.social_clicks = db.social_clicks := by
  cases f with
  | some e => exact ⟨rfl, rfl, rfl⟩
  | none =>
    by_cases hc : db.session_first_seen.any (fun r => r.session_id == sid) <;>
      simp [is_new_user_atomic, hc]

theorem mem_zip_map {α : Type} (g : α → α) :
    ∀ (l : List α) (p : α × α), p ∈ l.zip (l.map g) → p.2 = g p.1
  | [], p, h => absurd h (List.not_mem_nil p)
  | a :: l, p, h => by
    rw [List.map_cons, List.zip_cons_cons] at h
    rcases List.mem_cons.mp h with h | h
    · rw [h]
    · exact mem_zip_map g l p h

/-- C4: code-bug evidence.  The body of `redirect_qr` does raise 404 for an
unknown code and 410 for a deactivated one, but the handler's own
`except Exception` catches those `HTTPException`s and replaces both with a
500 — so the claimed distinct terminal statuses never reach the caller. -/
theorem redirect_handler_masks_404_410_as_500 :
    redirect_qr_body dbOneInactive "missing" none "s"
      = Except.error (RouteError.http 404) ∧
    redirect_qr dbOneInactive "missing" none "s" = RedirectResult.status 500 ∧
    redirect_qr_body dbOneInactive "inact" none "s"
      = Except.error (RouteError.http 410) ∧
    redirect_qr dbOneInactive "inact" none "s" = RedirectResult.status 500 :=
  ⟨rfl, by decide, rfl, by decide⟩

/-- C7: for an active code (the unique row matching the requested code) the
redirect page's destination is the stored target URL plus `branch=<code>`,
glued with `?` when the target has no query string yet and with `&` when it
does. -/
theorem redirect_active_appends_branch (db : DB) (qr : QRCodeRow)
    (cookie : Option String) (fresh : String)
    (hone : db.qr_codes.filter (fun q => q.code == qr.code) = [qr])
    (hact : qr.is_active = true) :
    (strContains qr.target_url '?' = false →
      redirect_qr db qr.code cookie fresh
        = RedirectResult.html (qr.target_url ++ "?branch=" ++ qr.code)
            (if pyTruthyOpt cookie then cookie.getD "" else fresh)) ∧
    (strContains qr.target_url '?' = true →
      redirect_qr db qr.code cookie fresh
        = RedirectResult.html (qr.target_url ++ "&branch=" ++ qr.code)
            (if pyTruthyOpt cookie then cookie.getD "" else fresh)) := by
  constructor
  · intro hsep
    simp only [redirect_qr, redirect_qr_body, hone, scalarOneOrNone, hact,
      redirectDestination, hsep]
    simp only [Bool.not_true, if_neg, Bool.false_eq_true, not_false_eq_true,
      if_false, RedirectResult.html.injEq, and_true]
    rw [String.append_assoc qr.target_url "?" "branch="]
    rfl
  · intro hsep
    simp only [redirect_qr, redirect_qr_body, hone, scalarOneOrNone, hact,
      redirectDestination, hsep]
    simp only [Bool.not_true, if_neg, Bool.false_eq_true, not_false_eq_true,
      if_false, if_true, RedirectResult.html.injEq, and_true]
    rw [String.append_assoc qr.target_url "&" "branch="]
    rfl

/-- Witness for C7 at the spec's own two examples: target `https://a.com`
gains `?branch=CODE`, target `https://a.com?x=1` gains `&branch=CODE`. -/
theorem redirect_active_appends_branch_witness :
    (dbOneActive.qr_codes.filter (fun q => q.code == "CODE")
        = [⟨1, "CODE", "https://a.com", true, none⟩] ∧
      redirect_qr dbOneActive "CODE" none "f"
        = RedirectResult.html "https://a.com?branch=CODE" "f") ∧
    (dbActiveQuery.qr_codes.filter (fun q => q.code == "CODE")
        = [⟨2, "CODE", "https://a.com?x=1", true, some 7⟩] ∧
      redirect_qr dbActiveQuery "CODE" none "f"
        = RedirectResult.html "https://a.com?x=1&branch=CODE" "f") := by
  constructor
  · refine ⟨by decide, ?_⟩
    have h := redirect_active_appends_branch dbOneActive
      ⟨1, "CODE", "https://a.com", true, none⟩ none "f" (by decide) rfl
    exact (h.1 (by decide)).trans (by decide)
  · refine ⟨by decide, ?_⟩
    have h := redirect_active_appends_branch dbActiveQuery
      ⟨2, "CODE", "https://a.com?x=1", true, some 7⟩ none "f" (by decide) rfl
    exact (h.2 (by decide)).trans (by decide)

/-- C5 counterexample: with payload session `"a"` and cookie session `"b"`,
`POST /api/social-click` records the click under `"b"` — the cookie wins
over the explicit payload value, contradicting the claimed payload-first
priority; and a social-click request with no session from either source
logs no anomaly. -/
theorem social_session_prefers_cookie_counterexample :
    ((log_social_click demoParser dbEmpty ⟨some "9.9.9.9", some "b", some "UA"⟩
        (some ⟨some "facebook", none, some "a"⟩) none false
        "f").committed.social_clicks.map (fun c => c.session_id)) = ["b"] ∧
    ("b" : String) ≠ "a" ∧
    (log_social_click demoParser dbEmpty ⟨some "9.9.9.9", none, some "UA"⟩
        (some ⟨some "facebook", none, none⟩) none false
        "f").sessionAnomalyLogged = false := by
  decide

theorem is_new_user_atomic_qr_scans (db : DB) (sid act : String)
    (bid qid : Option Nat) (f : Option DbFault) :
    (is_new_user_atomic db sid act bid qid f).2.qr_scans = db.qr_scans :=
  (is_new_user_atomic_frame db sid act bid qid f).2.1

theorem is_new_user_atomic_social_clicks (db : DB) (sid act : String)
    (bid qid : Option Nat) (f : Option DbFault) :
    (is_new_user_atomic db sid act bid qid f).2.social_clicks = db.social_clicks :=
  (is_new_user_atomic_frame db sid act bid qid f).2.2

theorem hasRowB_after_classify (db : DB) (sid act : String)
    (bid qid : Option Nat) :
    hasRowB (is_new_user_atomic db sid act bid qid none).2 sid = true := by
  by_cases hc : db.session_first_seen.any (fun r => r.session_id == sid) <;>
    simp [is_new_user_atomic, hc, hasRowB]

/-- C5 (amended): `POST /api/scan-log` resolves the session as payload
value, then cookie, then freshly generated, and logs the anomaly exactly
when neither payload nor cookie supplied one; `POST /api/social-click`
resolves it as cookie first, then payload value, then freshly generated,
and logs no such anomaly. -/
theorem session_resolution_priority (deviceParser : String → DeviceInfo)
    (db : DB) (req : RequestCtx) (qid : Option Nat) (ua pv : Option String)
    (ps : Option String) (fresh : String) :
    ((log_scan deviceParser db req (some ⟨qid, ua, ps⟩) none false
        fresh).committed.qr_scans.map (fun s => s.session_id))
      = db.qr_scans.map (fun s => s.session_id) ++
        [if ps.getD "" ≠ "" then ps.getD ""
         else if req.cookie_session.getD "" ≠ "" then req.cookie_session.getD ""
         else fresh] ∧
    (log_scan deviceParser db req (some ⟨qid, ua, ps⟩) none false
        fresh).sessionAnomalyLogged
      = (decide (ps.getD "" = "") && decide (req.cookie_session.getD "" = "")) ∧
    ((log_social_click deviceParser db req (some ⟨pv, none, ps⟩) none false
        fresh).committed.social_clicks.map (fun c => c.session_id))
      = db.social_clicks.map (fun c => c.session_id) ++
        [if req.cookie_session.getD "" ≠ "" then req.cookie_session.getD ""
         else if ps.getD "" ≠ "" then ps.getD "" else fresh] ∧
    (log_social_click deviceParser db req (some ⟨pv, none, ps⟩) none false
        fresh).sessionAnomalyLogged = false := by
  by_cases h1 : ps.getD "" = "" <;> by_cases h2 : req.cookie_session.getD "" = "" <;>
    refine ⟨?_, ?_, ?_, ?_⟩ <;>
      simp [log_scan, log_social_click, scanSessionId, socialSessionId,
        pyTruthyOpt_eq, pyTruthy, h1, h2,
        is_new_user_atomic_qr_scans, is_new_user_atomic_social_clicks]

/-- C6 counterexample: a social-click request whose event commit fails
answers `{"status": "error"}`, yet the store is not left unchanged by the
request — the classifier had already committed the first-seen row for the
fresh session — and the staged click row is still pending, because this
handler's `except` clause never calls `rollback`. -/
theorem social_click_error_path_mutates_store :
    (log_social_click demoParser dbEmpty ⟨some "9.9.9.9", none, some "UA"⟩
        (some ⟨some "instagram", none, some "sess1"⟩) none true "f").response
      = ApiResponse.error ∧
    (log_social_click demoParser dbEmpty ⟨some "9.9.9.9", none, some "UA"⟩
        (some ⟨some "instagram", none, some "sess1"⟩) none true
        "f").committed.session_first_seen ≠ dbEmpty.session_first_seen ∧
    (log_social_click demoParser dbEmpty ⟨some "9.9.9.9", none, some "UA"⟩
        (some ⟨some "instagram", none, some "sess1"⟩) none true
        "f").pendingClicks ≠ [] := by
  decide

/-- C6 (amended): on a parsing failure or a failing event commit, both
endpoints catch the fault and answer `{"status": "error"}`, and neither
commits an event row; `log_scan`'s `except` additionally rolls the session
back, leaving nothing pending, while `log_social_click`'s leaves the staged
click pending; and neither error path undoes what the classifier already
committed, so the committed store is not necessarily unchanged. -/
theorem error_path_shape (deviceParser : String → DeviceInfo) (db : DB)
    (req : RequestCtx) (pl : ScanPayload) (pv sessv : Option String)
    (cf : Option DbFault) (fresh : String) :
    (log_scan deviceParser db req none cf false fresh).response
      = ApiResponse.error ∧
    (log_scan deviceParser db req none cf false fresh).committed = db ∧
    (log_scan deviceParser db req none cf false fresh).pendingScans = [] ∧
    (log_scan deviceParser db req (some pl) cf true fresh).response
      = ApiResponse.error ∧
    (log_scan deviceParser db req (some pl) cf true fresh).committed.qr_scans
      = db.qr_scans ∧
    (log_scan deviceParser db req (some pl) cf true fresh).pendingScans = [] ∧
    (log_social_click deviceParser db req none cf false fresh).response
      = ApiResponse.error ∧
    (log_social_click deviceParser db req none cf false fresh).committed = db ∧
    (log_social_click deviceParser db req none cf false fresh).pendingClicks
      = [] ∧
    (log_social_click deviceParser db req (some ⟨pv, none, sessv⟩) cf true
        fresh).response = ApiResponse.error ∧
    (log_social_click deviceParser db req (some ⟨pv, none, sessv⟩) cf true
        fresh).committed.social_clicks = db.social_clicks ∧
    (log_social_click deviceParser db req (some ⟨pv, none, sessv⟩) cf true
        fresh).pendingClicks.length = 1 := by
  refine ⟨rfl, rfl, rfl, ?_, ?_, ?_, rfl, rfl, rfl, ?_, ?_, ?_⟩ <;>
    simp [log_scan, log_social_click, pyTruthyOpt,
      is_new_user_atomic_qr_scans, is_new_user_atomic_social_clicks]

/-- C8: both enrichment workers are no-ops — leaving the whole store
untouched and raising nothing (they are total functions) — whenever the
geography lookup returned no result or raised, whenever the commit would
fail, and whenever the targeted event row no longer exists. -/
theorem enrichment_missing_data_no_mutation (db : DB) (eid : Nat)
    (geo : GeoResult) (sf : Bool) :
    _enrich_location db eid GeoResult.noData sf = db ∧
    _enrich_location db eid GeoResult.fault sf = db ∧
    _enrich_location db eid geo true = db ∧
    (db.qr_scans.filter (fun s => s.id == eid) = [] →
      _enrich_location db eid geo sf = db) ∧
    _enrich_click_location db eid GeoResult.noData sf = db ∧
    _enrich_click_location db eid GeoResult.fault sf = db ∧
    _enrich_click_location db eid geo true = db ∧
    (db.social_clicks.filter (fun c => c.id == eid) = [] →
      _enrich_click_location db eid geo sf = db) := by
  refine ⟨rfl, rfl, ?_, ?_, rfl, rfl, ?_, ?_⟩
  · cases geo with
    | noData => rfl
    | fault => rfl
    | found loc =>
      simp only [_enrich_location]
      split
      · rfl
      · rfl
      · rfl
  · intro h
    cases geo with
    | noData => rfl
    | fault => rfl
    | found loc =>
      simp only [_enrich_location, h, scalarOneOrNone]
  · cases geo with
    | noData => rfl
    | fault => rfl
    | found loc =>
      simp only [_enrich_click_location]
      split
      · rfl
      · rfl
      · rfl
  · intro h
    cases geo with
    | noData => rfl
    | fault => rfl
    | found loc =>
      simp only [_enrich_click_location, h, scalarOneOrNone]

/-- Witness for C8: enriching event id 99, which exists in neither table of
`dbOneEvent`, mutates nothing even with a geography result in hand. -/
theorem enrichment_missing_data_no_mutation_witness :
    (dbOneEvent.qr_scans.filter (fun s => s.id == 99) = [] ∧
      _enrich_location dbOneEvent 99 (GeoResult.found demoLoc) false
        = dbOneEvent) ∧
    (dbOneEvent.social_clicks.filter (fun c => c.id == 99) = [] ∧
      _enrich_click_location dbOneEvent 99 (GeoResult.found demoLoc) false
        = dbOneEvent) := by
  have h := enrichment_missing_data_no_mutation dbOneEvent 99
    (GeoResult.found demoLoc) false
  exact ⟨⟨by decide, h.2.2.2.1 (by decide)⟩,
         ⟨by decide, h.2.2.2.2.2.2.2 (by decide)⟩⟩

/-- C9: when an enrichment worker does update the event row it targets
(geography found, row present exactly once, commit succeeding), the other
three tables are untouched, no scan/click row is added or removed, rows
with a different id are exactly unchanged, and on the targeted row every
non-geography field keeps its value while the geography fields take the
looked-up values (`country`, `city`, `region` for scans; `country`, `city`
for clicks). -/
theorem enrichment_touches_only_geography (db : DB) (eid : Nat)
    (loc : LocationData) :
    ((db.qr_scans.filter (fun s => s.id == eid)).length = 1 →
      (_enrich_location db eid (GeoResult.found loc) false).session_first_seen
          = db.session_first_seen ∧
      (_enrich_location db eid (GeoResult.found loc) false).qr_codes
          = db.qr_codes ∧
      (_enrich_location db eid (GeoResult.found loc) false).social_clicks
          = db.social_clicks ∧
      (_enrich_location db eid (GeoResult.found loc) false).qr_scans.length
          = db.qr_scans.length ∧
      ∀ p ∈ db.qr_scans.zip
          (_enrich_location db eid (GeoResult.found loc) false).qr_scans,
        (p.2.id = p.1.id ∧ p.2.qr_code_id = p.1.qr_code_id ∧
         p.2.device_type = p.1.device_type ∧
         p.2.device_name = p.1.device_name ∧
         p.2.browser = p.1.browser ∧ p.2.os = p.1.os ∧
         p.2.ip_address = p.1.ip_address ∧
         p.2.session_id = p.1.session_id ∧
         p.2.is_new_user = p.1.is_new_user ∧
         p.2.user_agent = p.1.user_agent) ∧
        ((p.1.id == eid) = false → p.2 = p.1) ∧
        ((p.1.id == eid) = true →
          p.2.country = loc.country ∧ p.2.city = loc.city ∧
          p.2.region = loc.region)) ∧
    ((db.social_clicks.filter (fun c => c.id == eid)).length = 1 →
      (_enrich_click_location db eid (GeoResult.found loc) false).session_first_seen
          = db.session_first_seen ∧
      (_enrich_click_location db eid (GeoResult.found loc) false).qr_codes
          = db.qr_codes ∧
      (_enrich_click_location db eid (GeoResult.found loc) false).qr_scans
          = db.qr_scans ∧
      (_enrich_click_location db eid (GeoResult.found loc) false).social_clicks.length
          = db.social_clicks.length ∧
      ∀ p ∈ db.social_clicks.zip
          (_enrich_click_location db eid (GeoResult.found loc) false).social_clicks,
        (p.2.id = p.1.id ∧ p.2.platform = p.1.platform ∧
         p.2.branch_id = p.1.branch_id ∧
         p.2.device_type = p.1.device_type ∧
         p.2.browser = p.1.browser ∧ p.2.os = p.1.os ∧
         p.2.ip_address = p.1.ip_address ∧
         p.2.session_id = p.1.session_id ∧
         p.2.is_new_user = p.1.is_new_user ∧
         p.2.user_agent = p.1.user_agent) ∧
        ((p.1.id == eid) = false → p.2 = p.1) ∧
        ((p.1.id == eid) = true →
          p.2.country = loc.country ∧ p.2.city = loc.city)) := by
  constructor
  · intro hlen
    obtain ⟨a, ha⟩ := List.length_eq_one.mp hlen
    have hrun : _enrich_location db eid (GeoResult.found loc) false
        = { db with qr_scans := db.qr_scans.map (fun s =>
              if s.id == eid then
                { s with country := loc.country, city := loc.city,
                         region := loc.region }
              else s) } := by
      unfold _enrich_location
      rw [ha]
      rfl
    rw [hrun]
    refine ⟨rfl, rfl, rfl, by simp, ?_⟩
    intro p hp
    have hp2 := mem_zip_map (fun s =>
        if s.id == eid then
          { s with country := loc.country, city := loc.city,
                   region := loc.region }
        else s) db.qr_scans p hp
    by_cases hb : (p.1.id == eid) = true
    · refine ⟨?_, ?_, ?_⟩
      · rw [hp2]
        simp [hb]
      · intro hf
        rw [hb] at hf
        exact Bool.noConfusion hf
      · intro _
        rw [hp2]
        simp [hb]
    · have hb' : (p.1.id == eid) = false := by
        cases hx : (p.1.id == eid)
        · rfl
        · exact absurd hx hb
      refine ⟨?_, ?_, ?_⟩
      · rw [hp2]
        simp [hb']
      · intro _
        rw [hp2]
        simp [hb']
      · intro ht
        rw [ht] at hb'
        exact Bool.noConfusion hb'
  · intro hlen
    obtain ⟨a, ha⟩ := List.length_eq_one.mp hlen
    have hrun : _enrich_click_location db eid (GeoResult.found loc) false
        = { db with social_clicks := db.social_clicks.map (fun c =>
              if c.id == eid then
                { c with country := loc.country, city := loc.city }
              else c) } := by
      unfold _enrich_click_location
      rw [ha]
      rfl
    rw [hrun]
    refine ⟨rfl, rfl, rfl, by simp, ?_⟩
    intro p hp
    have hp2 := mem_zip_map (fun c =>
        if c.id == eid then
          { c with country := loc.country, city := loc.city }
        else c) db.social_clicks p hp
    by_cases hb : (p.1.id == eid) = true
    · refine ⟨?_, ?_, ?_⟩
      · rw [hp2]
        simp [hb]
      · intro hf
        rw [hb] at hf
        exact Bool.noConfusion hf
      · intro _
        rw [hp2]
        simp [hb]
    · have hb' : (p.1.id == eid) = false := by
        cases hx : (p.1.id == eid)
        · rfl
        · exact absurd hx hb
      refine ⟨?_, ?_, ?_⟩
      · rw [hp2]
        simp [hb']
      · intro _
        rw [hp2]
        simp [hb']
      · intro ht
        rw [ht] at hb'
        exact Bool.noConfusion hb'

/-- Witness for C9: enriching event id 1 in `dbOneEvent` (present exactly
once in each table) leaves the session table and the code table unchanged. -/
theorem enrichment_touches_only_geography_witness :
    ((dbOneEvent.qr_scans.filter (fun s => s.id == 1)).length = 1 ∧
      (_enrich_location dbOneEvent 1 (GeoResult.found demoLoc)
          false).session_first_seen = dbOneEvent.session_first_seen) ∧
    ((dbOneEvent.social_clicks.filter (fun c => c.id == 1)).length = 1 ∧
      (_enrich_click_location dbOneEvent 1 (GeoResult.found demoLoc)
          false).qr_codes = dbOneEvent.qr_codes) := by
  have h := enrichment_touches_only_geography dbOneEvent 1 demoLoc
  exact ⟨⟨by decide, (h.1 (by decide)).1⟩,
         ⟨by decide, (h.2 (by decide)).2.1⟩⟩

theorem is_new_user_atomic_result (db : DB) (sid act : String)
    (bid qid : Option Nat) :
    (is_new_user_atomic db sid act bid qid none).1
      = (!hasRowB db sid && pyTruthy sid) := by
  by_cases hc : db.session_first_seen.any (fun r => r.session_id == sid) <;>
    simp [is_new_user_atomic, hasRowB, hc, pyTruthyOpt]

/-- C10: a `POST /api/social-click` whose `branch_code` is absent (or falsy)
or matches no stored QR code is not an error: the handler still records the
click with a null branch reference, still classifies the session (the
first-seen row exists afterwards), and still answers
`{"status": "success", ...}`. -/
theorem social_click_unresolvable_branch_ok (deviceParser : String → DeviceInfo)
    (db : DB) (req : RequestCtx) (sp : SocialPayload) (fresh : String)
    (hbc : pyTruthyOpt sp.branch_code = false ∨
      db.qr_codes.filter (fun q => q.code == sp.branch_code.getD "") = []) :
    (log_social_click deviceParser db req (some sp) none false fresh).response
      = ApiResponse.success none
          (!hasRowB db (socialSessionId req.cookie_session (sp.session_id.getD "") fresh)
            && pyTruthy (socialSessionId req.cookie_session (sp.session_id.getD "") fresh)) ∧
    ((log_social_click deviceParser db req (some sp) none false
        fresh).committed.social_clicks.map (fun c => c.branch_id))
      = db.social_clicks.map (fun c => c.branch_id) ++ [none] ∧
    hasRowB (log_social_click deviceParser db req (some sp) none false
        fresh).committed
      (socialSessionId req.cookie_session (sp.session_id.getD "") fresh) = true := by
  have hcase : pyTruthyOpt sp.branch_code = false ∨
      (pyTruthyOpt sp.branch_code = true ∧
        db.qr_codes.filter (fun q => q.code == sp.branch_code.getD "") = []) := by
    rcases hbc with hb | hb
    · exact Or.inl hb
    · cases hx : pyTruthyOpt sp.branch_code
      · exact Or.inl rfl
      · exact Or.inr ⟨rfl, hb⟩
  rcases hcase with hb | ⟨hbt, hb⟩
  · refine ⟨?_, ?_, ?_⟩
    · simp [log_social_click, hb, is_new_user_atomic_result]
    · simp [log_social_click, hb, is_new_user_atomic_social_clicks]
    · have hsfs : (log_social_click deviceParser db req (some sp) none false
          fresh).committed.session_first_seen
          = (is_new_user_atomic db
              (socialSessionId req.cookie_session (sp.session_id.getD "") fresh)
              "social_click" none none none).2.session_first_seen := by
        simp [log_social_click, hb]
      have h2 := hasRowB_after_classify db
        (socialSessionId req.cookie_session (sp.session_id.getD "") fresh)
        "social_click" none none
      simp only [hasRowB] at h2 ⊢
      rw [hsfs]
      exact h2
  · refine ⟨?_, ?_, ?_⟩
    · simp [log_social_click, hbt, hb, scalarOneOrNone, is_new_user_atomic_result]
    · simp [log_social_click, hbt, hb, scalarOneOrNone,
        is_new_user_atomic_social_clicks]
    · have hsfs : (log_social_click deviceParser db req (some sp) none false
          fresh).committed.session_first_seen
          = (is_new_user_atomic db
              (socialSessionId req.cookie_session (sp.session_id.getD "") fresh)
              "social_click" none none none).2.session_first_seen := by
        simp [log_social_click, hbt, hb, scalarOneOrNone]
      have h2 := hasRowB_after_classify db
        (socialSessionId req.cookie_session (sp.session_id.getD "") fresh)
        "social_click" none none
      simp only [hasRowB] at h2 ⊢
      rw [hsfs]
      exact h2

/-- Witness for C10: a payload naming branch code `"NOPE"`, which exists in
no stored QR code, still produces a success response. -/
theorem social_click_unresolvable_branch_ok_witness :
    (pyTruthyOpt (some "NOPE") = false ∨
      dbOneActive.qr_codes.filter (fun q => q.code == "NOPE") = []) ∧
    (log_social_click demoParser dbOneActive ⟨some "9.9.9.9", none, some "UA"⟩
        (some ⟨some "facebook", some "NOPE", some "a"⟩) none false
        "f").response = ApiResponse.success none true ∧
    ((log_social_click demoParser dbOneActive ⟨some "9.9.9.9", none, some "UA"⟩
        (some ⟨some "facebook", some "NOPE", some "a"⟩) none false
        "f").committed.social_clicks.map (fun c => c.branch_id)) = [none] := by
  have h := social_click_unresolvable_branch_ok demoParser dbOneActive
    ⟨some "9.9.9.9", none, some "UA"⟩ ⟨some "facebook", some "NOPE", some "a"⟩
    "f" (Or.inr (by decide))
  exact ⟨Or.inr (by decide), h.1.trans (by decide), h.2.1.trans (by decide)⟩
